import Mathlib

set_option maxHeartbeats 1000000

/-!
Shallow embedding of the CellMate flow-analysis program
(source file MM_flow_analyzer.py).

Pixel values, timestamps, pixel sizes and frame intervals are modelled as
rationals; flow-to-speed conversion (a Euclidean norm) lives in the reals.
Python exceptions are modelled by an explicit error type and Except.
-/

/-- Numpy dtypes that appear in the program (the temporal median filter
allocates float32 output; page arrays carry their own dtype). -/
inductive DType where
  | float32
  | uint8
  | uint16
  | int32
deriving DecidableEq

/-- Python exceptions raised by the modelled code paths.
* typeError: unpacking None in Channel.__init__ when
  _read_px_size_and_finteval falls through all version branches;
* nameError: the undefined global Ch0 referenced in FarenbackAnalyzer._getScaler
  (line 266), and the unbound local hist in doFlowsToSpeed when the
  histogram loop body never runs;
* attributeError: None.mean() in _getScaler when the channel has one page;
* indexError: pages[0] on a channel with zero pages in getArray;
* valueErrorAmbiguous: numpy truthiness of an array compared against None;
* valueErrorInvalidRange / valueErrorWindowTooLarge: the two ValueErrors
  raised by getTemporalMedianFilterArray;
* valueErrorEmptyMax: numpy max of an empty array in doFlowsToSpeed;
* noFlowException: the bare Exception raised by doFlowsToSpeed when
  self.flows is None. -/
inductive PyError where
  | typeError
  | nameError
  | attributeError
  | indexError
  | valueErrorAmbiguous
  | valueErrorInvalidRange
  | valueErrorWindowTooLarge
  | valueErrorEmptyMax
  | noFlowException
deriving DecidableEq

/-- A 2D frame: rows of rational pixel values. -/
abbrev Frame := List (List ℚ)

/-- One TIFF page: its decoded 2D pixel array, the dtype of that array, and
the ElapsedTime-ms entry of its MicroManagerMetadata tag. -/
structure Page where
  frame : Frame
  dtype : DType
  elapsedTime : ℚ
deriving DecidableEq

/-- The MicroManager metadata read by the program: the Summary block fields
(MicroManagerVersion, Interval_ms, WaitInterval, Width, Height), the two
root-level pixel-size fields (PixelSizeUm for 1.4/gamma, PixelSize_um for
beta), and the parallel per-page IndexMap arrays for Slice and Channel. -/
structure Metadata where
  version : String
  interval_ms : ℚ
  waitInterval : ℚ
  pixelSizeUm : ℚ
  pixelSize_um : ℚ
  width : ℕ
  height : ℕ
  sliceMap : List ℕ
  channelMap : List ℕ
deriving DecidableEq

/-- An opened TiffFile: its page list and micromanager_metadata. -/
structure TiffFile where
  pages : List Page
  metadata : Metadata
deriving DecidableEq

/-- A 3D numpy array in the model: its frame list and its dtype. -/
structure NpArray3 where
  frames : List Frame
  dtype : DType
deriving DecidableEq

/-- The state of a Channel object (MM_flow_analyzer.py lines 16-34):
indices, pixel size and intended frame interval, per-page elapsed times,
retained pages, metadata Width/Height (used by getArray for the output
shape), and the lazily-populated caches self.array / self.medianArray /
self.frameSamplingInterval. -/
structure ChannelState where
  chIndex : ℕ
  sliceIdx : ℕ
  pxSize_um : ℚ
  finterval_ms : ℚ
  elapsedTimes_ms : List ℚ
  pages : List Page
  width : ℕ
  height : ℕ
  array : Option NpArray3
  medianArray : Option NpArray3
  frameSamplingInterval : Option ℕ
deriving DecidableEq

/-- Whether the pattern occurs as a leading block of the character list
(re.search helper). -/
def startsWithChars (pat : List Char) (s : List Char) : Bool :=
  match pat, s with
  | [], _ => true
  | _ :: _, [] => false
  | p :: ps, c :: cs => p == c && startsWithChars ps cs

/-- Whether the pattern occurs anywhere in the character list; models
re.search with a literal pattern (used for the gamma and beta markers). -/
def hasSubstr (pat : List Char) : List Char → Bool
  | [] => startsWithChars pat []
  | c :: cs => startsWithChars pat (c :: cs) || hasSubstr pat cs

/-- Whether the character list starts with the pattern 1\.4\.[\d]
(a literal 1.4. followed by a digit). -/
def one4At : List Char → Bool
  | a :: b :: c :: d :: e :: _ =>
      a == '1' && b == '.' && c == '4' && d == '.' && e.isDigit
  | _ => false

/-- Whether the regex 1\.4\.[\d] matches anywhere in the character list. -/
def hasOne4 : List Char → Bool
  | [] => false
  | c :: cs => one4At (c :: cs) || hasOne4 cs

/-- Channel._read_px_size_and_finteval (lines 54-98): dispatch on the
MicroManagerVersion string.  The beta marker is tested first and reads
Summary WaitInterval and root PixelSize_um; the 1.4 pattern and the gamma
marker read Summary Interval_ms and root PixelSizeUm.  When no marker
matches, the Python function falls off the end and returns None, modelled
here as Option.none. -/
def readPxSizeAndFinteval (md : Metadata) : Option (ℚ × ℚ) :=
  let v := md.version.data
  if hasSubstr (("beta").data) v then some (md.pixelSize_um, md.waitInterval)
  else if hasOne4 v then some (md.pixelSizeUm, md.interval_ms)
  else if hasSubstr (("gamma").data) v then some (md.pixelSizeUm, md.interval_ms)
  else none

/-- Channel._page_extractor (lines 37-52): keep page i exactly when
IndexMap Slice at i equals the requested slice and IndexMap Channel at i
equals the requested channel. -/
def pageExtractor (tif : TiffFile) (chIndex sliceIdx : ℕ) : List Page :=
  (List.range tif.pages.length).filterMap (fun i =>
    if tif.metadata.sliceMap.getD i 0 = sliceIdx ∧
       tif.metadata.channelMap.getD i 0 = chIndex then
      tif.pages.get? i
    else none)

/-- Channel.__init__ (lines 16-34): reads pixel size and frame interval
(the tuple unpacking raises TypeError when _read_px_size_and_finteval
returned None), extracts the matching pages, records their elapsed times,
and leaves the three caches empty. -/
def channelInit (chIndex sliceIdx : ℕ) (tif : TiffFile) :
    Except PyError ChannelState :=
  match readPxSizeAndFinteval tif.metadata with
  | none => Except.error PyError.typeError
  | some pf =>
      let ps := pageExtractor tif chIndex sliceIdx
      Except.ok
        { chIndex := chIndex
          sliceIdx := sliceIdx
          pxSize_um := pf.1
          finterval_ms := pf.2
          elapsedTimes_ms := ps.map Page.elapsedTime
          pages := ps
          width := tif.metadata.width
          height := tif.metadata.height
          array := none
          medianArray := none
          frameSamplingInterval := none }

/-- Channel.getArray (lines 108-126).  The guard compares self.array with
None: for a numpy-array cache this elementwise comparison is ambiguous and
raises ValueError, and for the (always-None) cache the method decodes every
page into a fresh stack whose dtype is the first page's dtype.  The method
never assigns self.array, so the returned state is the input state —
the cache stays empty. -/
def getArray (ch : ChannelState) : Except PyError (NpArray3 × ChannelState) :=
  match ch.array with
  | some _ => Except.error PyError.valueErrorAmbiguous
  | none =>
      match ch.pages with
      | [] => Except.error PyError.indexError
      | p :: _ =>
          Except.ok ({ frames := ch.pages.map Page.frame, dtype := p.dtype }, ch)

/-- Consecutive differences of a timestamp list (the loop of
getActualFrameIntevals_ms, lines 203-209). -/
def diffsQ : List ℚ → List ℚ
  | [] => []
  | [_] => []
  | a :: b :: rest => (b - a) :: diffsQ (b :: rest)

/-- Arithmetic mean of a rational list (numpy mean); 0 on the empty list,
which the modelled paths never reach. -/
def meanQ (l : List ℚ) : ℚ :=
  l.foldr (· + ·) 0 / l.length

/-- Channel.getActualFrameIntevals_ms (lines 191-209): None for a
single-page channel, otherwise the consecutive elapsed-time differences. -/
def getActualFrameIntevals (ch : ChannelState) : Option (List ℚ) :=
  if ch.pages.length = 1 then none
  else some (diffsQ ch.elapsedTimes_ms)

/-- Channel.doFrameIntervalSanityCheck (lines 215-225): None for a
single-page channel, otherwise whether the ratio of the actual mean
interval to the intended one is within maxDiff of 1. -/
def doFrameIntervalSanityCheck (ch : ChannelState) (maxDiff : ℚ) : Option Bool :=
  if ch.pages.length = 1 then none
  else some
    (decide (|1 - meanQ (diffsQ ch.elapsedTimes_ms) / ch.finterval_ms| < maxDiff))

/-- FarenbackAnalyzer._getScaler (lines 251-271).  When the sanity check
returns None (single page), the branch condition is truthy and the first
branch statement calls .mean() on None: AttributeError.  When it returns
False, the branch recomputes a corrected scaler into self.channel.scaler
(an attribute nothing reads) and then executes Ch0.finterval_ms = ... where
Ch0 is undefined in this scope: NameError.  When it returns True, the
method returns pxSize_um * ((finterval_ms / 1000) / 60) — the code's
variable frames_per_min actually holds minutes per frame. -/
def getScaler (ch : ChannelState) : Except PyError ℚ :=
  match doFrameIntervalSanityCheck ch (1 / 100) with
  | none => Except.error PyError.attributeError
  | some b =>
      if b then Except.ok (ch.pxSize_um * (ch.finterval_ms / 1000 / 60))
      else Except.error PyError.nameError

/-- Insert into a sorted rational list. -/
def insertQ (x : ℚ) : List ℚ → List ℚ
  | [] => [x]
  | y :: ys => if x ≤ y then x :: y :: ys else y :: insertQ x ys

/-- Insertion sort on rationals (ascending). -/
def sortQ : List ℚ → List ℚ
  | [] => []
  | x :: xs => insertQ x (sortQ xs)

/-- numpy median of a 1D sample: middle element of the sorted list for odd
length, average of the two middle elements for even length. -/
def medianQ (l : List ℚ) : ℚ :=
  let s := sortQ l
  let n := l.length
  if n = 0 then 0
  else if n % 2 = 1 then s.getD (n / 2) 0
  else (s.getD (n / 2 - 1) 0 + s.getD (n / 2) 0) / 2

/-- The per-pixel temporal median of a window of frames, on the w × h grid
the program takes from the stack shape (getArray builds the stack with
metadata Width as axis 1 and Height as axis 2). -/
def medianFrame (w h : ℕ) (window : List Frame) : Frame :=
  (List.range w).map (fun i =>
    (List.range h).map (fun j =>
      medianQ (window.map (fun fr => (fr.getD i []).getD j 0))))

/-- The clamped stop frame of getTemporalMedianFilterArray (lines 160-161):
len(pages) when stopFrame is None or exceeds it. -/
def clampStop (ch : ChannelState) (stopFrame : Option ℕ) : ℕ :=
  match stopFrame with
  | none => ch.pages.length
  | some s => min s ch.pages.length

/-- Channel.getTemporalMedianFilterArray (lines 128-188).  Returns the
cached median array unless recalculate is set (the None-comparison
ValueError on an array cache is caught and handled, lines 150-158).
Otherwise: clamp stopFrame, raise ValueError for startFrame ≥ stopFrame,
raise ValueError when fewer than windowSize frames are selected, then take
a gliding per-pixel median over windows of frameSamplingInterval
consecutive frames of the materialized stack, into a float32 array, and
cache it together with the window size. -/
def getTemporalMedianFilterArray (ch : ChannelState) (startFrame : ℕ)
    (stopFrame : Option ℕ) (frameSamplingInterval : ℕ) (recalculate : Bool) :
    Except PyError (NpArray3 × ChannelState) :=
  match ch.medianArray, recalculate with
  | some m, false => Except.ok (m, ch)
  | _, _ =>
      let stop := clampStop ch stopFrame
      if startFrame ≥ stop then Except.error PyError.valueErrorInvalidRange
      else if stop - startFrame < frameSamplingInterval then
        Except.error PyError.valueErrorWindowTooLarge
      else
        match getArray ch with
        | Except.error e => Except.error e
        | Except.ok arrSt =>
            let arr := arrSt.1.frames
            let res : NpArray3 :=
              { frames :=
                  (List.range (stop - frameSamplingInterval + 1 - startFrame)).map
                    (fun k =>
                      medianFrame ch.width ch.height
                        ((arr.drop (startFrame + k)).take frameSamplingInterval))
                dtype := DType.float32 }
            Except.ok (res,
              { arrSt.2 with
                medianArray := some res
                frameSamplingInterval := some frameSamplingInterval })

/-- One flow frame: per-pixel (dx, dy) displacement in px/frame. -/
abbrev FlowFrame := List (List (ℚ × ℚ))

/-- The state of a FarenbackAnalyzer (lines 239-249): its channel, the
optional flow field (populated by doFarenbackFlow, an external OpenCV
call), and the scaler computed at construction. -/
structure FlowAnalyzer where
  channel : ChannelState
  flows : Option (List FlowFrame)
  scaler : ℚ
deriving DecidableEq

/-- FarenbackAnalyzer.__init__ (lines 241-249): construction computes
self.scaler = self._getScaler(), so a _getScaler exception aborts
construction. -/
def mkFarenbackAnalyzer (ch : ChannelState) : Except PyError FlowAnalyzer :=
  match getScaler ch with
  | Except.error e => Except.error e
  | Except.ok s => Except.ok { channel := ch, flows := none, scaler := s }

/-- A uniform flow field: t frames of h × w pixels, each displaced by
(u, v) px/frame. -/
def uniformFlow (t h w : ℕ) (u v : ℚ) : List FlowFrame :=
  List.replicate t (List.replicate h (List.replicate w (u, v)))

/-- The speed conversion of doFlowsToSpeed (lines 326-329):
np.sqrt(np.square(flows).sum(axis=3)) * scaler — per pixel the Euclidean
norm of the displacement, times the scaler. -/
noncomputable def speedsOf (flows : List FlowFrame) (sc : ℚ) :
    List (List (List ℝ)) :=
  flows.map (fun fr => fr.map (fun row => row.map (fun p =>
    Real.sqrt ((p.1 : ℝ) ^ 2 + (p.2 : ℝ) ^ 2) * (sc : ℝ))))

/-- Flatten a 2D list of values into its element list (row-major, as numpy
iterates a frame). -/
def flatten2 {α : Type} (fr : List (List α)) : List α :=
  fr.foldr (fun row acc => row ++ acc) []

/-- Flatten a 3D list of values into its element list (row-major, as numpy
iterates a stack). -/
def flatten3 {α : Type} (s : List (List (List α))) : List α :=
  s.foldr (fun fr acc => flatten2 fr ++ acc) []

/-- numpy max over a nonempty element list (arr.max()); 0 on the empty
list, a case the modelled paths guard against. -/
noncomputable def maxOf : List ℝ → ℝ
  | [] => 0
  | x :: xs => xs.foldr max x

/-- The bin edges np.histogram produces for a given (lo, hi) range and bin
count: nbins + 1 equally spaced points from lo to hi; a degenerate range
with lo = hi is widened by 0.5 on each side, as numpy does. -/
noncomputable def histEdges (lo hi : ℝ) (nbins : ℕ) : List ℝ :=
  let lo2 := if lo = hi then lo - 1 / 2 else lo
  let hi2 := if lo = hi then hi + 1 / 2 else hi
  (List.range (nbins + 1)).map (fun j => lo2 + j * ((hi2 - lo2) / nbins))

/-- np.histogram with density=True over a given range: equal-width bins,
each value counted in the bin [edge_j, edge_j+1) except that the last bin
also includes its right edge; densities are counts / (N * binwidth).
Returns (densities, edges). -/
noncomputable def frameHist (data : List ℝ) (nbins : ℕ) (lo hi : ℝ) :
    List ℝ × List ℝ :=
  let lo2 := if lo = hi then lo - 1 / 2 else lo
  let hi2 := if lo = hi then hi + 1 / 2 else hi
  let w := (hi2 - lo2) / nbins
  let counts := (List.range nbins).map (fun j =>
    data.countP (fun v =>
      @decide (lo2 + j * w ≤ v ∧ (v < lo2 + (j + 1) * w ∨ (j = nbins - 1 ∧ v ≤ hi2)))
        (Classical.propDecidable _)))
  (counts.map (fun c => (c : ℝ) / ((data.length : ℝ) * w)), histEdges lo hi nbins)

/-- The per-frame histograms doFlowsToSpeed computes when hist_range is
None: every frame is binned over the single global range
(0, max of the whole speed stack). -/
noncomputable def defaultHistPairs (flows : List FlowFrame) (sc : ℚ)
    (nbins : ℕ) : List (List ℝ × List ℝ) :=
  let speeds := speedsOf flows sc
  speeds.map (fun fr => frameHist (flatten2 fr) nbins 0 (maxOf (flatten3 speeds)))

/-- Sum of a real list. -/
noncomputable def rowSum (l : List ℝ) : ℝ := l.foldr (· + ·) 0

/-- Per-frame spatial mean (out.mean(axis=(1, 2)) for one frame): total sum
of the frame divided by its element count. -/
noncomputable def frameMean (fr : List (List ℝ)) : ℝ :=
  rowSum (fr.map rowSum) / ((fr.map List.length).foldr (· + ·) 0 : ℕ)

/-- The result of doFlowsToSpeed: the speed stack, the optional histogram
tuple (per-frame density rows, bin edges — the edges of the last
iteration's np.histogram call, line 343), and the optional per-frame
average speeds. -/
structure SpeedOutcome where
  speeds : List (List (List ℝ))
  histograms : Option (List (List ℝ) × List ℝ)
  avgSpeeds : Option (List ℝ)

/-- FarenbackAnalyzer.doFlowsToSpeed (lines 304-351).  The scaler argument
defaults to self.scaler; a missing flow field raises the no-flow Exception;
speeds are per-pixel norms times the scaler.  With doHist set and
hist_range None the range is (0, speeds.max()) — np.max raises ValueError
on an empty stack; each frame is binned over that one range; bins is the
edge vector of the last loop iteration, so an empty frame list leaves the
local hist unbound: NameError.  With doAvgSpeed set the per-frame spatial
means are recorded. -/
noncomputable def doFlowsToSpeedFull (a : FlowAnalyzer) (scaler : Option ℚ)
    (doAvgSpeed doHist : Bool) (nbins : ℕ) (hist_range : Option (ℝ × ℝ)) :
    Except PyError SpeedOutcome :=
  let sc := scaler.getD a.scaler
  match a.flows with
  | none => Except.error PyError.noFlowException
  | some flows =>
      let speeds := speedsOf flows sc
      let avg : Option (List ℝ) :=
        if doAvgSpeed then some (speeds.map frameMean) else none
      if doHist then
        match hist_range with
        | some rg =>
            let pairs := speeds.map (fun fr =>
              frameHist (flatten2 fr) nbins rg.1 rg.2)
            match pairs.getLast? with
            | none => Except.error PyError.nameError
            | some lastp =>
                Except.ok
                  { speeds := speeds
                    histograms := some (pairs.map Prod.fst, lastp.2)
                    avgSpeeds := avg }
        | none =>
            match flatten3 speeds with
            | [] => Except.error PyError.valueErrorEmptyMax
            | _ =>
                let pairs := speeds.map (fun fr =>
                  frameHist (flatten2 fr) nbins 0 (maxOf (flatten3 speeds)))
                match pairs.getLast? with
                | none => Except.error PyError.nameError
                | some lastp =>
                    Except.ok
                      { speeds := speeds
                        histograms := some (pairs.map Prod.fst, lastp.2)
                        avgSpeeds := avg }
      else
        Except.ok { speeds := speeds, histograms := none, avgSpeeds := avg }

/-- The speeds attribute as saveSpeedCSV finds it: either still in its
native 3D (t, h, w) shape, or in the 6D (t, 1, 1, h, w, 1) shape left
behind by a prior saveSpeedArray call. -/
inductive SpeedsStored where
  | s3 (s : List (List (List ℝ)))
  | s6 (s : List (List (List (List (List (List ℝ))))))

/-- The in-place reshape of saveSpeedArray (lines 423-424): (t, h, w)
becomes (t, 1, 1, h, w, 1). -/
def sixFromThree (s : List (List (List ℝ))) :
    List (List (List (List (List (List ℝ))))) :=
  s.map (fun fr => [[fr.map (fun row => row.map (fun v => [v]))]])

/-- The per-frame mean series saveSpeedCSV writes (lines 443-450).  For a
6D array of shape (t, 1, 1, h, w, 1), np.average over axes (3, 4) yields a
(t, 1, 1, 1) array whose entry at (k, 0, 0, 0) is the mean over axes 3 and
4 of block (k, 0, 0, ., ., 0), and the reshape to length t keeps exactly
those entries; for a 3D array, np.average over axes (1, 2) is the per-frame
spatial mean. -/
noncomputable def csvMeanSeries : SpeedsStored → List ℝ
  | SpeedsStored.s3 s => s.map frameMean
  | SpeedsStored.s6 s =>
      s.map (fun e =>
        frameMean (((e.headD []).headD []).map (fun row =>
          row.map (fun cell => cell.getD 0 0))))

/-- A 1 × 1 page with the given pixel value and elapsed time. -/
def pageQ (v t : ℚ) : Page :=
  { frame := [[v]], dtype := DType.uint16, elapsedTime := t }

/-- A four-page 1 × 1 channel with pixel size 1 um, intended frame interval
1000 ms and actual elapsed-time deltas of exactly 1000 ms, as produced by
Channel.__init__ on such a file. -/
def chUniform : ChannelState :=
  { chIndex := 0
    sliceIdx := 0
    pxSize_um := 1
    finterval_ms := 1000
    elapsedTimes_ms := [0, 1000, 2000, 3000]
    pages := [pageQ 1 0, pageQ 5 1000, pageQ 2 2000, pageQ 9 3000]
    width := 1
    height := 1
    array := none
    medianArray := none
    frameSamplingInterval := none }

/-- A three-page 1 × 1 channel with pixel size 1 um, intended frame
interval 1000 ms but actual elapsed-time deltas of 1200 ms (20 percent
divergence, far beyond the 1 percent tolerance). -/
def chDiverge : ChannelState :=
  { chIndex := 0
    sliceIdx := 0
    pxSize_um := 1
    finterval_ms := 1000
    elapsedTimes_ms := [0, 1200, 2400]
    pages := [pageQ 1 0, pageQ 5 1200, pageQ 2 2400]
    width := 1
    height := 1
    array := none
    medianArray := none
    frameSamplingInterval := none }

/-- Metadata whose MicroManagerVersion matches none of the three known
markers (no beta, no gamma, no 1.4.digit). -/
def mdAlpha : Metadata :=
  { version := "2.0.0-alpha1 20190527"
    interval_ms := 1000
    waitInterval := 900
    pixelSizeUm := 1
    pixelSize_um := 1
    width := 1
    height := 1
    sliceMap := [0]
    channelMap := [0] }

/-- A one-page file carrying the unrecognized-version metadata. -/
def tifAlpha : TiffFile :=
  { pages := [pageQ 1 0], metadata := mdAlpha }

/-- A two-page MicroManager 1.4 file whose IndexMap holds slice 0 for both
pages and channels 0 and 1: channel index 5 matches no page. -/
def tifOneFour : TiffFile :=
  { pages := [pageQ 1 0, pageQ 2 100]
    metadata :=
      { version := "1.4.23 20180220"
        interval_ms := 1000
        waitInterval := 900
        pixelSizeUm := 1
        pixelSize_um := 1
        width := 1
        height := 1
        sliceMap := [0, 0]
        channelMap := [0, 1] } }

/-- An analyzer holding a 2-frame 2 × 2 flow field uniformly (3, 4)
px/frame. -/
def aUniform34 : FlowAnalyzer :=
  { channel := chUniform, flows := some (uniformFlow 2 2 2 3 4), scaler := 7 }

/-- An analyzer on which no flow has been computed. -/
def aNoFlow : FlowAnalyzer :=
  { channel := chUniform, flows := none, scaler := 1 }

/-- A 2-frame 1 × 1 flow field whose per-frame speed maxima differ:
frame 0 has magnitude 5, frame 1 magnitude 0. -/
def flowsTwoMax : List FlowFrame := [[[(3, 4)]], [[(0, 0)]]]

/-- An analyzer holding the two-maxima flow field, with scaler 1. -/
def aTwoMax : FlowAnalyzer :=
  { channel := chUniform, flows := some flowsTwoMax, scaler := 1 }

/-- getD of a mapped list at an in-range index is the image of getD. -/
theorem getD_map_of_lt {α β : Type} (l : List α) (f : α → β) (i : ℕ)
    (d : β) (d' : α) (h : i < l.length) :
    (l.map f).getD i d = f (l.getD i d') := by
  have h' : i < (l.map f).length := by simpa using h
  rw [List.getD_eq_getElem?_getD, List.getElem?_eq_getElem h',
    List.getElem_map, List.getD_eq_getElem?_getD, List.getElem?_eq_getElem h]
  rfl

/-- getD of a mapped range at an in-range index is the function value. -/
theorem getD_range_map {β : Type} (n i : ℕ) (g : ℕ → β) (d : β)
    (h : i < n) :
    ((List.range n).map g).getD i d = g i := by
  rw [getD_map_of_lt (List.range n) g i d 0 (by simpa using h)]
  congr 1
  rw [List.getD_eq_getElem?_getD,
    List.getElem?_eq_getElem (by simpa using h)]
  simp

/-- A window taken out of a list, mapped through f, is the range-indexed
list of images of its elements. -/
theorem dropTake_map_eq {α β : Type} (l : List α) (d : α) (a n : ℕ)
    (h : a + n ≤ l.length) (f : α → β) :
    ((l.drop a).take n).map f =
      (List.range n).map (fun m => f (l.getD (a + m) d)) := by
  apply List.ext_getElem
  · simp; omega
  · intro i h1 h2
    have hi : i < n := by simpa using h2
    simp only [List.getElem_map, List.getElem_take, List.getElem_drop,
      List.getElem_range]
    congr 1
    rw [List.getD_eq_getElem?_getD, List.getElem?_eq_getElem (by omega)]
    rfl

/-- C4, counterexample: on metadata whose version string matches none of
the three markers, resolving acquisition parameters does not fail with a
dedicated UnrecognizedMetadataVersion error — the resolver returns None,
and constructing the Channel then fails with a generic TypeError from
unpacking that None. -/
theorem c4_unrecognized_version_counterexample :
    readPxSizeAndFinteval mdAlpha = none ∧
    channelInit 0 0 tifAlpha = Except.error PyError.typeError := by
  exact ⟨by decide, rfl⟩

/-- C4, amended: for every metadata block whose version string matches none
of the three known markers, resolving acquisition parameters returns None
(no value pair) rather than raising a dedicated error, and Channel
construction on such a file fails with a TypeError when it unpacks that
None. -/
theorem c4_unrecognized_version_amended (md : Metadata)
    (hb : hasSubstr (("beta").data) md.version.data = false)
    (h14 : hasOne4 md.version.data = false)
    (hg : hasSubstr (("gamma").data) md.version.data = false) :
    readPxSizeAndFinteval md = none ∧
    ∀ (tif : TiffFile) (ci si : ℕ), tif.metadata = md →
      channelInit ci si tif = Except.error PyError.typeError := by
  have hr : readPxSizeAndFinteval md = none := by
    simp [readPxSizeAndFinteval, hb, h14, hg]
  refine ⟨hr, ?_⟩
  intro tif ci si ht
  simp [channelInit, ht, hr]

/-- C4, witness: the amended statement instantiated at the
unrecognized-version metadata. -/
theorem c4_unrecognized_version_amended_witness :
    (hasSubstr (("beta").data) mdAlpha.version.data = false ∧
      hasOne4 mdAlpha.version.data = false ∧
      hasSubstr (("gamma").data) mdAlpha.version.data = false) ∧
    (readPxSizeAndFinteval mdAlpha = none ∧
      ∀ (tif : TiffFile) (ci si : ℕ), tif.metadata = mdAlpha →
        channelInit ci si tif = Except.error PyError.typeError) :=
  ⟨⟨by decide, by decide, by decide⟩,
    c4_unrecognized_version_amended mdAlpha (by decide) (by decide) (by decide)⟩

/-- C8, counterexample: requesting channel 5 slice 0 from a file whose
IndexMap contains no such page does not fail with NoMatchingPages; the
extractor returns an empty page list and an empty Channel is constructed
without error. -/
theorem c8_no_matching_pages_counterexample :
    pageExtractor tifOneFour 5 0 = [] ∧
    channelInit 5 0 tifOneFour = Except.ok
      { chIndex := 5, sliceIdx := 0, pxSize_um := 1, finterval_ms := 1000,
        elapsedTimes_ms := [], pages := [], width := 1, height := 1,
        array := none, medianArray := none, frameSamplingInterval := none } := by
  exact ⟨by decide, rfl⟩

/-- C8, amended: for every container and requested channel/slice pair such
that zero pages have both a matching slice id and a matching channel id,
channel extraction raises no error: given recognized metadata, a Channel
with zero retained pages and zero elapsed timestamps is produced. -/
theorem c8_no_matching_pages_amended (tif : TiffFile) (ci si : ℕ)
    (pf : ℚ × ℚ)
    (hres : readPxSizeAndFinteval tif.metadata = some pf)
    (hnone : ∀ i, i < tif.pages.length →
      ¬(tif.metadata.sliceMap.getD i 0 = si ∧
        tif.metadata.channelMap.getD i 0 = ci)) :
    channelInit ci si tif = Except.ok
      { chIndex := ci, sliceIdx := si, pxSize_um := pf.1,
        finterval_ms := pf.2, elapsedTimes_ms := [], pages := [],
        width := tif.metadata.width, height := tif.metadata.height,
        array := none, medianArray := none,
        frameSamplingInterval := none } := by
  have hpe : pageExtractor tif ci si = [] := by
    simp only [pageExtractor]
    rw [List.filterMap_eq_nil_iff]
    intro i hi
    rw [if_neg (hnone i (List.mem_range.mp hi))]
  simp [channelInit, hres, hpe]

/-- C8, witness: the amended statement instantiated at the two-page file
with no page at channel 5. -/
theorem c8_no_matching_pages_amended_witness :
    (readPxSizeAndFinteval tifOneFour.metadata = some (1, 1000) ∧
      (∀ i, i < tifOneFour.pages.length →
        ¬(tifOneFour.metadata.sliceMap.getD i 0 = 0 ∧
          tifOneFour.metadata.channelMap.getD i 0 = 5))) ∧
    channelInit 5 0 tifOneFour = Except.ok
      { chIndex := 5, sliceIdx := 0, pxSize_um := 1, finterval_ms := 1000,
        elapsedTimes_ms := [], pages := [], width := 1, height := 1,
        array := none, medianArray := none,
        frameSamplingInterval := none } :=
  ⟨⟨by decide, by decide⟩,
    c8_no_matching_pages_amended tifOneFour 5 0 (1, 1000) (by decide) (by decide)⟩

/-- C3: on a channel with three pages, intended interval 1000 ms and actual
mean interval 1200 ms (divergence beyond the 1 percent tolerance), the
sanity check fails, and _getScaler — instead of recomputing the downstream
scale factor from the actual 1200 ms mean — raises NameError at the
undefined name Ch0 (line 266), so analyzer construction aborts and no scale
factor is produced at all. -/
theorem c3_reconciliation_code_bug :
    doFrameIntervalSanityCheck chDiverge (1 / 100) = some false ∧
    meanQ (diffsQ chDiverge.elapsedTimes_ms) = 1200 ∧
    getScaler chDiverge = Except.error PyError.nameError ∧
    mkFarenbackAnalyzer chDiverge = Except.error PyError.nameError := by
  have hmean : meanQ (diffsQ chDiverge.elapsedTimes_ms) = 1200 := by
    norm_num [meanQ, diffsQ, chDiverge]
  have hsan : doFrameIntervalSanityCheck chDiverge (1 / 100) = some false := by
    norm_num [doFrameIntervalSanityCheck, meanQ, diffsQ, chDiverge, pageQ]
    rw [abs_of_pos] <;> norm_num
  have hsc : getScaler chDiverge = Except.error PyError.nameError := by
    unfold getScaler
    rw [hsan]
    rfl
  refine ⟨hsan, hmean, hsc, ?_⟩
  unfold mkFarenbackAnalyzer
  rw [hsc]

/-- C9: getArray on a fresh four-page channel returns the decoded stack but
leaves the channel unchanged — self.array is never assigned (the returned
state is the input state, its array cache still None), so every subsequent
call re-runs the full decode loop instead of returning a stored array. -/
theorem c9_array_cache_code_bug :
    getArray chUniform = Except.ok
      ({ frames := [[[1]], [[5]], [[2]], [[9]]], dtype := DType.uint16 },
        chUniform) ∧
    chUniform.array = none := by
  exact ⟨rfl, rfl⟩

/-- C1: on a channel with pixel size 1 um and frame interval 1000 ms that
passes the frame-interval sanity check, the scale factor computed at
analyzer construction is 1/60 — the code computes frames_per_min as
finterval_s / 60 (minutes per frame) instead of 60 / finterval_s — so
doFlowsToSpeed with the default scale factor maps a uniform (2, 0) px/frame
flow field to the uniform speed 1/30 um/min, not the 120 um/min the correct
pixels/frame-to-um/min conversion yields. -/
theorem c1_default_scaler_code_bug :
    doFrameIntervalSanityCheck chUniform (1 / 100) = some true ∧
    mkFarenbackAnalyzer chUniform =
      Except.ok { channel := chUniform, flows := none, scaler := 1 / 60 } ∧
    (∃ out,
      doFlowsToSpeedFull
        { channel := chUniform, flows := some (uniformFlow 1 2 2 2 0),
          scaler := 1 / 60 } none false false 10 none = Except.ok out ∧
      out.speeds =
        List.replicate 1 (List.replicate 2 (List.replicate 2 ((1 : ℝ) / 30)))) ∧
    (1 : ℝ) / 30 ≠ 120 := by
  have hsan : doFrameIntervalSanityCheck chUniform (1 / 100) = some true := by
    norm_num [doFrameIntervalSanityCheck, meanQ, diffsQ, chUniform, pageQ]
  have hsc : getScaler chUniform = Except.ok (1 / 60) := by
    unfold getScaler
    rw [hsan]
    norm_num [chUniform]
  refine ⟨hsan, ?_, ?_, by norm_num⟩
  · unfold mkFarenbackAnalyzer
    rw [hsc]
  · refine ⟨_, rfl, ?_⟩
    show speedsOf (uniformFlow 1 2 2 2 0) ((1 : ℚ) / 60) =
      List.replicate 1 (List.replicate 2 (List.replicate 2 ((1 : ℝ) / 30)))
    have hval : Real.sqrt (((2 : ℚ) : ℝ) ^ 2 + ((0 : ℚ) : ℝ) ^ 2) *
        (((1 : ℚ) / 60 : ℚ) : ℝ) = 1 / 30 := by
      have h4 : ((2 : ℚ) : ℝ) ^ 2 + ((0 : ℚ) : ℝ) ^ 2 = 2 ^ 2 := by
        push_cast
        norm_num
      rw [h4, Real.sqrt_sq (by norm_num : (0 : ℝ) ≤ 2)]
      push_cast
      norm_num
    simp only [speedsOf, uniformFlow, List.map_replicate]
    rw [hval]

/-- C5: on a fresh channel (no cached median, no cached array), the
temporal median filter fails with the InvalidRange ValueError exactly when
startFrame is at least the clamped stop frame, fails with the
WindowTooLarge ValueError when the clamped selection is shorter than the
window, and otherwise proceeds to compute; the only clamping performed is
the documented stop-frame clamp to the page count. -/
theorem c5_median_validation (ch : ChannelState) (startFrame wsize : ℕ)
    (stopOpt : Option ℕ)
    (hmed : ch.medianArray = none) (harr : ch.array = none) :
    (startFrame ≥ clampStop ch stopOpt →
      getTemporalMedianFilterArray ch startFrame stopOpt wsize false =
        Except.error PyError.valueErrorInvalidRange) ∧
    (startFrame < clampStop ch stopOpt →
      clampStop ch stopOpt - startFrame < wsize →
      getTemporalMedianFilterArray ch startFrame stopOpt wsize false =
        Except.error PyError.valueErrorWindowTooLarge) ∧
    (startFrame < clampStop ch stopOpt →
      wsize ≤ clampStop ch stopOpt - startFrame →
      ∃ r newch,
        getTemporalMedianFilterArray ch startFrame stopOpt wsize false =
          Except.ok (r, newch)) := by
  have hclamp : clampStop ch stopOpt ≤ ch.pages.length := by
    cases stopOpt with
    | none => simp [clampStop]
    | some s => simp [clampStop]
  refine ⟨?_, ?_, ?_⟩
  · intro h
    unfold getTemporalMedianFilterArray
    rw [hmed]
    simp only []
    rw [if_pos h]
  · intro h1 h2
    unfold getTemporalMedianFilterArray
    rw [hmed]
    simp only []
    rw [if_neg (by omega), if_pos h2]
  · intro h1 h2
    have hne : ch.pages ≠ [] := by
      intro hnil
      rw [hnil] at hclamp
      simp at hclamp
      omega
    obtain ⟨p, ps, hp⟩ := List.exists_cons_of_ne_nil hne
    unfold getTemporalMedianFilterArray
    rw [hmed]
    simp only []
    rw [if_neg (by omega), if_neg (by omega)]
    unfold getArray
    rw [harr, hp]
    exact ⟨_, _, rfl⟩

/-- C5, witness: the three validation behaviours on the four-page channel:
start 2 with stop clamped to 2 is InvalidRange, a window of 5 over 4 frames
is WindowTooLarge, and the default window of 3 over all 4 frames computes. -/
theorem c5_median_validation_witness :
    (2 ≥ clampStop chUniform (some 2) ∧
      getTemporalMedianFilterArray chUniform 2 (some 2) 3 false =
        Except.error PyError.valueErrorInvalidRange) ∧
    (0 < clampStop chUniform none ∧ clampStop chUniform none - 0 < 5 ∧
      getTemporalMedianFilterArray chUniform 0 none 5 false =
        Except.error PyError.valueErrorWindowTooLarge) ∧
    (0 < clampStop chUniform none ∧ 3 ≤ clampStop chUniform none - 0 ∧
      ∃ r newch,
        getTemporalMedianFilterArray chUniform 0 none 3 false =
          Except.ok (r, newch)) :=
  ⟨⟨by decide,
      (c5_median_validation chUniform 2 3 (some 2) rfl rfl).1 (by decide)⟩,
    ⟨by decide, by decide,
      (c5_median_validation chUniform 0 5 none rfl rfl).2.1 (by decide) (by decide)⟩,
    ⟨by decide, by decide,
      (c5_median_validation chUniform 0 3 none rfl rfl).2.2 (by decide) (by decide)⟩⟩

/-- C2: for every fresh channel and every startFrame, stopFrame and
(positive) windowSize accepted by the validation checks, the temporal
median filter returns a float32 stack of exactly
(stopFrame - startFrame) - (windowSize - 1) frames, where output frame k at
every pixel is the median of the windowSize consecutive input frames
starting at startFrame + k — a gliding window advancing one frame per
output step. -/
theorem c2_temporal_median_spec (ch : ChannelState) (startFrame wsize : ℕ)
    (stopOpt : Option ℕ)
    (hmed : ch.medianArray = none) (harr : ch.array = none)
    (hw : 1 ≤ wsize)
    (h1 : startFrame < clampStop ch stopOpt)
    (h2 : wsize ≤ clampStop ch stopOpt - startFrame) :
    ∃ r newch,
      getTemporalMedianFilterArray ch startFrame stopOpt wsize false =
        Except.ok (r, newch) ∧
      r.dtype = DType.float32 ∧
      r.frames.length = (clampStop ch stopOpt - startFrame) - (wsize - 1) ∧
      (∀ k, k < r.frames.length → ∀ i, i < ch.width → ∀ j, j < ch.height →
        ((r.frames.getD k []).getD i []).getD j 0 =
          medianQ ((List.range wsize).map (fun m =>
            (((ch.pages.map Page.frame).getD (startFrame + k + m) []).getD i
              []).getD j 0))) := by
  have hclamp : clampStop ch stopOpt ≤ ch.pages.length := by
    cases stopOpt with
    | none => simp [clampStop]
    | some s => simp [clampStop]
  have hne : ch.pages ≠ [] := by
    intro hnil
    rw [hnil] at hclamp
    simp at hclamp
    omega
  obtain ⟨p, ps, hp⟩ := List.exists_cons_of_ne_nil hne
  unfold getTemporalMedianFilterArray
  rw [hmed]
  simp only []
  rw [if_neg (by omega), if_neg (by omega)]
  unfold getArray
  rw [harr, hp]
  refine ⟨_, _, rfl, rfl, ?_, ?_⟩
  · simp only [List.length_map, List.length_range]
    omega
  · intro k hk i hi j hj
    simp only [List.length_map, List.length_range] at hk
    rw [getD_range_map _ _ _ _ hk]
    unfold medianFrame
    rw [getD_range_map _ _ _ _ hi, getD_range_map _ _ _ _ hj]
    have hlen : ch.pages.length = (p :: ps).length := by rw [hp]
    rw [dropTake_map_eq ((p :: ps).map Page.frame) [] (startFrame + k) wsize
      (by simp only [List.length_map]; simp only [List.length_cons] at *; omega)
      (fun fr => (fr.getD i []).getD j 0)]

/-- C2, witness: the gliding-median statement instantiated on the four-page
channel with the default window of 3 over all frames. -/
theorem c2_temporal_median_spec_witness :
    (1 ≤ 3 ∧ 0 < clampStop chUniform none ∧
      3 ≤ clampStop chUniform none - 0) ∧
    (∃ r newch,
      getTemporalMedianFilterArray chUniform 0 none 3 false =
        Except.ok (r, newch) ∧
      r.dtype = DType.float32 ∧
      r.frames.length = (clampStop chUniform none - 0) - (3 - 1) ∧
      (∀ k, k < r.frames.length →
        ∀ i, i < chUniform.width → ∀ j, j < chUniform.height →
        ((r.frames.getD k []).getD i []).getD j 0 =
          medianQ ((List.range 3).map (fun m =>
            (((chUniform.pages.map Page.frame).getD (0 + k + m) []).getD i
              []).getD j 0)))) :=
  ⟨⟨by decide, by decide, by decide⟩,
    c2_temporal_median_spec chUniform 0 3 none rfl rfl (by decide)
      (by decide) (by decide)⟩

/-- C7: doFlowsToSpeed computes at each pixel the Euclidean norm of the
displacement vector times the scale factor — a flow field uniformly
(3, 4) px/frame with scale factor 1 yields the uniform speed 5 everywhere —
and raises the no-flow Exception when no flow field has been computed. -/
theorem c7_speed_magnitude :
    (∀ (a : FlowAnalyzer) (t h w : ℕ),
      a.flows = some (uniformFlow t h w 3 4) →
      ∃ out,
        doFlowsToSpeedFull a (some 1) false false 10 none = Except.ok out ∧
        out.speeds =
          List.replicate t (List.replicate h (List.replicate w (5 : ℝ)))) ∧
    (∀ (a : FlowAnalyzer) (scaler : Option ℚ) (dav dh : Bool) (nbins : ℕ)
      (hr : Option (ℝ × ℝ)),
      a.flows = none →
      doFlowsToSpeedFull a scaler dav dh nbins hr =
        Except.error PyError.noFlowException) := by
  constructor
  · intro a t h w hf
    unfold doFlowsToSpeedFull
    rw [hf]
    refine ⟨_, rfl, ?_⟩
    show speedsOf (uniformFlow t h w 3 4) ((1 : ℚ)) =
      List.replicate t (List.replicate h (List.replicate w (5 : ℝ)))
    have hval : Real.sqrt (((3 : ℚ) : ℝ) ^ 2 + ((4 : ℚ) : ℝ) ^ 2) *
        (((1 : ℚ)) : ℝ) = 5 := by
      have h25 : ((3 : ℚ) : ℝ) ^ 2 + ((4 : ℚ) : ℝ) ^ 2 = 5 ^ 2 := by
        push_cast
        norm_num
      rw [h25, Real.sqrt_sq (by norm_num : (0 : ℝ) ≤ 5)]
      push_cast
      norm_num
    simp only [speedsOf, uniformFlow, List.map_replicate]
    rw [hval]
  · intro a scaler dav dh nbins hr hf
    unfold doFlowsToSpeedFull
    rw [hf]

/-- C7, witness: the magnitude statement instantiated at the 2-frame 2 × 2
uniform (3, 4) analyzer, and the error statement at an analyzer without
flow. -/
theorem c7_speed_magnitude_witness :
    (∃ out,
      doFlowsToSpeedFull aUniform34 (some 1) false false 10 none =
        Except.ok out ∧
      out.speeds =
        List.replicate 2 (List.replicate 2 (List.replicate 2 (5 : ℝ)))) ∧
    doFlowsToSpeedFull aNoFlow none false false 10 none =
      Except.error PyError.noFlowException :=
  ⟨c7_speed_magnitude.1 aUniform34 2 2 2 rfl,
    c7_speed_magnitude.2 aNoFlow none false false 10 none rfl⟩

/-- C6: when histograms are requested with no explicit range, doFlowsToSpeed
defaults the range to (0, maximum speed over the whole SpeedMap), computed
once globally, and bins every frame over that single range, so the bucket
edges of every frame's histogram are the same edge vector
histEdges 0 globalMax nbins. -/
theorem c6_histogram_global_range (a : FlowAnalyzer) (flows : List FlowFrame)
    (nbins : ℕ)
    (hf : a.flows = some flows)
    (hne : flatten3 (speedsOf flows a.scaler) ≠ []) :
    ∃ out,
      doFlowsToSpeedFull a none false true nbins none = Except.ok out ∧
      out.histograms = some
        ((defaultHistPairs flows a.scaler nbins).map Prod.fst,
          ((defaultHistPairs flows a.scaler nbins).getLast?.getD ([], [])).2) ∧
      (∀ i i', i < (defaultHistPairs flows a.scaler nbins).length →
          i' < (defaultHistPairs flows a.scaler nbins).length →
        ((defaultHistPairs flows a.scaler nbins).getD i ([], [])).2 =
        ((defaultHistPairs flows a.scaler nbins).getD i' ([], [])).2) ∧
      (∀ i, i < (defaultHistPairs flows a.scaler nbins).length →
        ((defaultHistPairs flows a.scaler nbins).getD i ([], [])).2 =
          histEdges 0 (maxOf (flatten3 (speedsOf flows a.scaler))) nbins) := by
  have hedge : ∀ m, m < (defaultHistPairs flows a.scaler nbins).length →
      ((defaultHistPairs flows a.scaler nbins).getD m ([], [])).2 =
        histEdges 0 (maxOf (flatten3 (speedsOf flows a.scaler))) nbins := by
    intro m hm
    simp only [defaultHistPairs, List.length_map] at hm
    simp only [defaultHistPairs]
    rw [getD_map_of_lt _ _ _ _ [] hm]
    rfl
  obtain ⟨x, xs, hx⟩ := List.exists_cons_of_ne_nil hne
  have hP : (speedsOf flows a.scaler).map (fun fr =>
      frameHist (flatten2 fr) nbins 0
        (maxOf (flatten3 (speedsOf flows a.scaler)))) =
      defaultHistPairs flows a.scaler nbins := rfl
  unfold doFlowsToSpeedFull
  rw [hf]
  simp only [Option.getD_none, hx]
  rw [← hx]
  rw [hP]
  cases hlast : (defaultHistPairs flows a.scaler nbins).getLast? with
  | none =>
      exfalso
      have hP0 := List.getLast?_eq_none_iff.mp hlast
      rw [← hP, hx] at hP0
      have hs0 := List.map_eq_nil_iff.mp hP0
      rw [hs0] at hx
      simp [flatten3] at hx
  | some lastp =>
      refine ⟨_, rfl, rfl, ?_, hedge⟩
      intro i i' hi hi'
      rw [hedge i hi, hedge i' hi']

/-- C6, witness: the global-range histogram statement instantiated at the
2-frame analyzer whose per-frame speed maxima differ (5 and 0). -/
theorem c6_histogram_global_range_witness :
    (aTwoMax.flows = some flowsTwoMax ∧
      flatten3 (speedsOf flowsTwoMax aTwoMax.scaler) ≠ []) ∧
    (∃ out,
      doFlowsToSpeedFull aTwoMax none false true 10 none = Except.ok out ∧
      out.histograms = some
        ((defaultHistPairs flowsTwoMax aTwoMax.scaler 10).map Prod.fst,
          ((defaultHistPairs flowsTwoMax aTwoMax.scaler 10).getLast?.getD
            ([], [])).2) ∧
      (∀ i i', i < (defaultHistPairs flowsTwoMax aTwoMax.scaler 10).length →
          i' < (defaultHistPairs flowsTwoMax aTwoMax.scaler 10).length →
        ((defaultHistPairs flowsTwoMax aTwoMax.scaler 10).getD i ([], [])).2 =
        ((defaultHistPairs flowsTwoMax aTwoMax.scaler 10).getD i' ([], [])).2) ∧
      (∀ i, i < (defaultHistPairs flowsTwoMax aTwoMax.scaler 10).length →
        ((defaultHistPairs flowsTwoMax aTwoMax.scaler 10).getD i ([], [])).2 =
          histEdges 0 (maxOf (flatten3 (speedsOf flowsTwoMax aTwoMax.scaler)))
            10)) :=
  ⟨⟨rfl, by simp [flowsTwoMax, speedsOf, flatten3, flatten2]⟩,
    c6_histogram_global_range aTwoMax flowsTwoMax 10 rfl
      (by simp [flowsTwoMax, speedsOf, flatten3, flatten2])⟩

/-- Collapsing the trailing singleton axis of a reshaped row recovers the
row. -/
theorem singleton_cell_id (row : List ℝ) :
    (row.map (fun v => ([v] : List ℝ))).map (fun cell => cell.getD 0 0) =
      row := by
  induction row with
  | nil => rfl
  | cons v vs ih => simp only [List.map_cons, List.getD_cons_zero, ih]

theorem frame_cells_id (fr : List (List ℝ)) :
    (fr.map (fun row => row.map (fun v => ([v] : List ℝ)))).map
      (fun row => row.map (fun cell => cell.getD 0 0)) = fr := by
  induction fr with
  | nil => rfl
  | cons row rest ih =>
      simp only [List.map_cons, ih]
      rw [singleton_cell_id]

/-- C10: the per-frame mean-speed series saveSpeedCSV writes is the same
whether the speeds array is in its native 3D shape or in the 6D
(t, 1, 1, h, w, 1) shape left by a prior saveSpeedArray call: averaging
over axes (3, 4) of the reshaped array equals averaging over axes (1, 2)
of the original. -/
theorem c10_csv_mean_equivalence (s : List (List (List ℝ))) :
    csvMeanSeries (SpeedsStored.s6 (sixFromThree s)) =
      csvMeanSeries (SpeedsStored.s3 s) := by
  simp only [csvMeanSeries, sixFromThree, List.map_map]
  apply List.map_congr_left
  intro fr _
  simp only [Function.comp_apply, List.headD_cons]
  rw [frame_cells_id]

/-- C10, witness: the series equivalence instantiated at a one-frame 2 × 2
speed stack. -/
theorem c10_csv_mean_equivalence_witness :
    csvMeanSeries (SpeedsStored.s6 (sixFromThree [[[1, 2], [3, 4]]])) =
      csvMeanSeries (SpeedsStored.s3 [[[1, 2], [3, 4]]]) :=
  c10_csv_mean_equivalence [[[1, 2], [3, 4]]]
